import Mathlib

/-!
Shallow embedding of the task lifecycle and observation core of the
CodingAgents repository (`app/core/models/task.py`, `app/core/task_manager.py`,
`app/api/websocket.py`, `app/api/streaming.py`, `app/api/tasks.py`,
`app/api/main.py`, `app/core/monitoring.py`), together with theorems settling
the frozen claims about it.

Modelling conventions:
* `datetime.utcnow()` is modelled by an explicit `now : Nat` argument
  (seconds); every function that reads the clock takes it as a parameter.
* Python float `progress` is modelled by `ℚ`; the code only assigns literals
  and clamps into `[0, 1]`, which is exact in either representation.
* Python `dict[str, Any]` payloads (`result`, `requirements`, ...) are opaque
  to every claim; they are modelled as association lists `List (String × String)`.
* Python truthiness tests (`if step:`, `if log:`, `if result:`, `x or y`) are
  modelled exactly: `None`, the empty string, `0` and the empty dict are falsy.
-/

namespace CodingAgents

/-- `TaskType` from `app/core/models/task.py`. -/
inductive TaskType where
  | codeAgent   -- "code-agent"
  | reviewer    -- "reviewer"
deriving DecidableEq, Repr

/-- `TaskStatus` from `app/core/models/task.py`. -/
inductive TaskStatus where
  | pending
  | running
  | reviewing
  | completed
  | failed
  | cancelled
deriving DecidableEq, Repr

/-- Opaque model of a `dict[str, Any]` payload. -/
abbrev PayloadDict := List (String × String)

/-- `Task` from `app/core/models/task.py` (pydantic model). -/
structure Task where
  id : String
  type : TaskType
  status : TaskStatus := .pending
  issue_number : Option Nat := none
  pr_number : Option Nat := none
  branch_name : Option String := none
  max_iterations : Nat := 5
  progress : ℚ := 0
  current_step : String := ""
  iteration : Nat := 1
  logs : List String := []
  files_changed : List (String × String) := []
  requirements : Option PayloadDict := none
  implementation_plan : Option PayloadDict := none
  result : Option PayloadDict := none
  error : Option String := none
  created_at : Nat
  updated_at : Nat
  started_at : Option Nat := none
  completed_at : Option Nat := none
deriving DecidableEq, Repr

/-- Two-digit zero padding used by `%H:%M:%S`. -/
def pad2 (n : Nat) : String :=
  if n < 10 then "0" ++ toString n else toString n

/-- `datetime.utcnow().strftime("%H:%M:%S")` for a clock value in seconds. -/
def fmtHMS (now : Nat) : String :=
  pad2 (now / 3600 % 24) ++ ":" ++ pad2 (now / 60 % 60) ++ ":" ++ pad2 (now % 60)

namespace Task

/-- `Task.add_log`: appends a timestamped line and bumps `updated_at`. -/
def add_log (t : Task) (message : String) (now : Nat) : Task :=
  { t with
      logs := t.logs ++ ["[" ++ fmtHMS now ++ "] " ++ message]
      updated_at := now }

/-- `Task.update_progress`: clamps progress into `[0, 1]`, optionally sets the
step and appends a log line, bumps `updated_at`. -/
def update_progress (t : Task) (progress : ℚ) (step : Option String)
    (log : Option String) (now : Nat) : Task :=
  let t := { t with progress := max 0 (min 1 progress) }
  let t := match step with
    | some s => if s ≠ "" then { t with current_step := s } else t
    | none => t
  let t := match log with
    | some l => if l ≠ "" then t.add_log l now else t
    | none => t
  { t with updated_at := now }

/-- `Task.mark_started`: sets status RUNNING and unconditionally overwrites
`started_at` with the current time (there is no set-once guard in the model
helper, unlike `TaskManager.update`). -/
def mark_started (t : Task) (now : Nat) : Task :=
  let t := { t with status := .running, started_at := some now, updated_at := now }
  t.add_log "Задача начата" now

/-- `Task.mark_completed`. -/
def mark_completed (t : Task) (result : Option PayloadDict) (now : Nat) : Task :=
  let t := { t with status := .completed, completed_at := some now,
                    updated_at := now, progress := 1 }
  let t := match result with
    | some r => if r ≠ [] then { t with result := some r } else t
    | none => t
  t.add_log "Задача завершена" now

/-- `Task.mark_failed`. -/
def mark_failed (t : Task) (error : String) (now : Nat) : Task :=
  let t := { t with status := .failed, completed_at := some now,
                    updated_at := now, error := some error }
  t.add_log ("Задача завершилась с ошибкой: " ++ error) now

/-- `Task.mark_cancelled`. -/
def mark_cancelled (t : Task) (now : Nat) : Task :=
  let t := { t with status := .cancelled, completed_at := some now, updated_at := now }
  t.add_log "Задача отменена" now

/-- `Task.is_active`: status is one of PENDING, RUNNING, REVIEWING. -/
def is_active (t : Task) : Bool :=
  t.status = TaskStatus.pending ∨ t.status = TaskStatus.running ∨
    t.status = TaskStatus.reviewing

end Task

/-- `TaskCreateRequest` from `app/core/models/task.py`. -/
structure TaskCreateRequest where
  type : TaskType
  issue_number : Option Nat := none
  pr_number : Option Nat := none
  branch_name : Option String := none
  max_iterations : Nat := 5
  repo_url : Option String := none
  github_token : Option String := none
deriving DecidableEq, Repr

/-- The Redis state seen by `TaskManager`: the `task:<id>` records as an
association list keyed by task id, and the `tasks:all` set index. -/
structure Store where
  records : List (String × Task) := []
  index : List String := []
deriving DecidableEq, Repr

/-- Overwrite of a single Redis key (`r.set(key, ...)`). -/
def setRecord (rs : List (String × Task)) (id : String) (t : Task) :
    List (String × Task) :=
  (id, t) :: rs.filter (fun p => p.1 ≠ id)

namespace TaskManager

/-- `TaskManager.save`: full-record overwrite under the task's id. -/
def save (st : Store) (t : Task) : Store :=
  { st with records := setRecord st.records t.id t }

/-- `TaskManager.get`: single-key lookup, `None` when missing. -/
def get (st : Store) (task_id : String) : Option Task :=
  List.lookup task_id st.records

/-- `TaskManager._add_to_list`: `SADD` of the id into the `tasks:all` set. -/
def add_to_list (st : Store) (task_id : String) : Store :=
  { st with index := if task_id ∈ st.index then st.index else st.index ++ [task_id] }

/-- The branch-name default of `TaskManager.create`:
`request.branch_name or (f"agent/issue-{n}" if request.issue_number else None)`
with Python truthiness (empty string and `0` are falsy). -/
def branchFor (req : TaskCreateRequest) : Option String :=
  let fallback : Option String :=
    match req.issue_number with
    | some n => if n ≠ 0 then some ("agent/issue-" ++ toString n) else none
    | none => none
  match req.branch_name with
  | some s => if s ≠ "" then some s else fallback
  | none => fallback

/-- `TaskManager.create`: the fresh uuid drawn by `uuid.uuid4()` and the
current time are explicit parameters. All other `Task` fields take the
pydantic defaults. -/
def create (st : Store) (req : TaskCreateRequest) (task_id : String)
    (now : Nat) : Task × Store :=
  let task : Task :=
    { id := task_id
      type := req.type
      issue_number := req.issue_number
      pr_number := req.pr_number
      branch_name := branchFor req
      max_iterations := req.max_iterations
      status := .pending
      created_at := now
      updated_at := now }
  let st := save st task
  let st := add_to_list st task_id
  (task, st)

/-- `if progress is not None: task.progress = max(0.0, min(1.0, progress))`. -/
def applyProgress (t : Task) (progress : Option ℚ) : Task :=
  match progress with
  | some p => { t with progress := max 0 (min 1 p) }
  | none => t

/-- `if step: task.current_step = step` (truthiness: `""` is skipped). -/
def applyStep (t : Task) (step : Option String) : Task :=
  match step with
  | some s => if s ≠ "" then { t with current_step := s } else t
  | none => t

/-- `if log: task.add_log(log)` (truthiness: `""` is skipped). -/
def applyLog (t : Task) (log : Option String) (now : Nat) : Task :=
  match log with
  | some l => if l ≠ "" then t.add_log l now else t
  | none => t

/-- The `if status:` block of `TaskManager.update`: assign the status, set
`started_at` on a first transition into RUNNING, set `completed_at` on a
transition into a terminal status and force progress to 1.0 for COMPLETED. -/
def applyStatus (t : Task) (status : Option TaskStatus) (now : Nat) : Task :=
  match status with
  | some s =>
    let t := { t with status := s }
    if s = .running ∧ t.started_at = none then
      { t with started_at := some now }
    else if s = .completed ∨ s = .failed ∨ s = .cancelled then
      { t with completed_at := some now
               progress := if s = .completed then 1 else t.progress }
    else t
  | none => t

/-- `if result: task.result = result` (truthiness: empty dict is skipped). -/
def applyResult (t : Task) (result : Option PayloadDict) : Task :=
  match result with
  | some r => if r ≠ [] then { t with result := some r } else t
  | none => t

/-- `if error: task.error = error` (truthiness: `""` is skipped). -/
def applyError (t : Task) (error : Option String) : Task :=
  match error with
  | some e => if e ≠ "" then { t with error := some e } else t
  | none => t

/-- The field mutations of `TaskManager.update` in source order, ending with
the unconditional `task.updated_at = datetime.utcnow()`. -/
def applyUpdate (t : Task) (progress : Option ℚ) (step : Option String)
    (log : Option String) (status : Option TaskStatus)
    (result : Option PayloadDict) (error : Option String) (now : Nat) : Task :=
  let t := applyProgress t progress
  let t := applyStep t step
  let t := applyLog t log now
  let t := applyStatus t status now
  let t := applyResult t result
  let t := applyError t error
  { t with updated_at := now }

/-- `TaskManager.update`: read-modify-write of the record; returns the updated
record (or `None` when the id is absent) together with the resulting store. -/
def update (st : Store) (task_id : String) (progress : Option ℚ)
    (step : Option String) (log : Option String) (status : Option TaskStatus)
    (result : Option PayloadDict) (error : Option String) (now : Nat) :
    Option Task × Store :=
  match get st task_id with
  | none => (none, st)
  | some task =>
    let task := applyUpdate task progress step log status result error now
    (some task, save st task)

/-- `TaskManager.cancel`: no-op on a task that is no longer active. -/
def cancel (st : Store) (task_id : String) (now : Nat) : Option Task × Store :=
  match get st task_id with
  | none => (none, st)
  | some task =>
    if ¬ task.is_active then (some task, st)
    else
      let task := task.mark_cancelled now
      (some task, save st task)

/-- `TaskManager.get_all`: walk the id index, fetch each record, filter by the
optional status, sort by `created_at` descending. -/
def get_all (st : Store) (status : Option TaskStatus) : List Task :=
  let tasks := st.index.filterMap (fun id =>
    match get st id with
    | some t => if status = none ∨ status = some t.status then some t else none
    | none => none)
  tasks.mergeSort (fun a b => decide (b.created_at ≤ a.created_at))

/-- `TaskManager.get_active_tasks`: delegates to `get_all(status=RUNNING)`. -/
def get_active_tasks (st : Store) : List Task :=
  get_all st (some .running)

end TaskManager

/-- The `active_tasks` field computed by the `/health` endpoint in
`app/api/main.py`: `len(await manager.get_active_tasks())`. -/
def health_active_tasks (st : Store) : Nat :=
  (TaskManager.get_active_tasks st).length

/-! ### WebSocket connection manager (`app/api/websocket.py`)

`ConnectionManager.active_connections` is a dict mapping a task id to the
list of open sockets; sockets are modelled by opaque `Nat` handles. -/

/-- The in-memory WebSocket registry: task id → list of sockets. -/
abbrev Registry := List (String × List Nat)

/-- In-place replacement of the socket list stored under a task id. -/
def setConns (reg : Registry) (task_id : String) (conns : List Nat) : Registry :=
  reg.map (fun p => if p.1 = task_id then (p.1, conns) else p)

namespace ConnectionManager

/-- `ConnectionManager.disconnect`. The source runs
`self.active_connections[task_id].remove(websocket)` guarded only by
`task_id in self.active_connections`; `list.remove` raises `ValueError`
when the element is absent, modelled by the `Except.error` branch. -/
def disconnect (reg : Registry) (task_id : String) (socket : Nat) :
    Except String Registry :=
  match List.lookup task_id reg with
  | none => .ok reg
  | some conns =>
    if socket ∈ conns then
      let conns := conns.erase socket
      if conns = [] then .ok (reg.filter (fun p => p.1 ≠ task_id))
      else .ok (setConns reg task_id conns)
    else .error "ValueError: list.remove(x): x not in list"

end ConnectionManager

/-! ### GitHub webhook intake (`app/api/main.py`, `github_webhook`) -/

/-- The fields of the `issue` object read by the webhook handler: its number,
the label names under `"labels"`, and whether the JSON object carries a
`"label"` key (the handler tests `"label" in payload.get("issue", {})`). -/
structure IssueObj where
  number : Nat
  labels : List String := []
  has_label_key : Bool := false
deriving DecidableEq, Repr

/-- The only field of the `pull_request` object read by the handler. -/
structure PRObj where
  number : Nat
deriving DecidableEq, Repr

/-- An inbound webhook payload restricted to the keys the handler inspects. -/
structure WebhookPayload where
  action : Option String := none
  issue : Option IssueObj := none
  pull_request : Option PRObj := none
deriving DecidableEq, Repr

/-- The three response shapes of the webhook handler. -/
inductive WebhookResponse where
  | triggeredCodeAgent (issue : Nat)
  | triggeredReviewer (pr : Nat)
  | received (event : String)
deriving DecidableEq, Repr

/-- `github_webhook` from `app/api/main.py`: the code-agent branch fires only
when the issue object carries a `"label"` key AND its `"labels"` names include
`"agent-task"`; otherwise the handler falls through to the pull-request check
and finally acknowledges the event. -/
def github_webhook (p : WebhookPayload) : WebhookResponse :=
  let event_type := p.action.getD "unknown"
  let fromIssue : Option WebhookResponse :=
    match p.issue with
    | some i =>
      if i.has_label_key then
        if "agent-task" ∈ i.labels then some (.triggeredCodeAgent i.number)
        else none
      else none
    | none => none
  match fromIssue with
  | some r => r
  | none =>
    match p.pull_request with
    | some pr => .triggeredReviewer pr.number
    | none => .received event_type

/-! ### SSE log stream (`app/api/streaming.py`, `stream_logs.event_generator`)

The generator's suspension points are the `manager.get(task_id)` calls; the
initial lookup reads the store, and each polling cycle's lookup result is
supplied through the `polls` list (one entry per completed 500 ms cycle). -/

/-- The events yielded by the `/logs/stream` generator. -/
inductive SSEEvent where
  | log (message : String)
  | status (status : TaskStatus) (progress : ℚ) (step : String)
  | done (status : TaskStatus) (progress : ℚ) (result : Option PayloadDict)
      (error : Option String)
  | error (message : String)
deriving DecidableEq, Repr

/-- How the modelled stream ends: `closed` (generator returned), `crashed`
(generator raised: after the task disappears mid-loop, the code `break`s and
then evaluates `task.status.value` on `None`, an `AttributeError`), or
`awaiting` (still active but the supplied `polls` list is exhausted). -/
inductive StreamEnd where
  | closed
  | crashed
  | awaiting
deriving DecidableEq, Repr

/-- One polling cycle's yields: the log lines appended past the last observed
count as `log` events, then an unconditional `status` event. Returns the new
observed log count. -/
def sseCycleEvents (t : Task) (lastCount : Nat) : List SSEEvent × Nat :=
  let newEvs :=
    if t.logs.length > lastCount then (t.logs.drop lastCount).map SSEEvent.log
    else []
  let cnt := if t.logs.length > lastCount then t.logs.length else lastCount
  (newEvs ++ [SSEEvent.status t.status t.progress t.current_step], cnt)

/-- The `while task.is_active` loop followed by the final `done` yield. -/
def sseLoop (t : Task) (lastCount : Nat) (polls : List (Option Task)) :
    List SSEEvent × StreamEnd :=
  if ¬ t.is_active then
    ([SSEEvent.done t.status t.progress t.result t.error], .closed)
  else
    match polls with
    | [] => ([], .awaiting)
    | none :: _ => ([SSEEvent.error "Задача исчезла"], .crashed)
    | some t' :: rest =>
      let (evs, cnt) := sseCycleEvents t' lastCount
      let (more, e) := sseLoop t' cnt rest
      (evs ++ more, e)

/-- The whole `/logs/stream` generator: initial lookup, backlog of current
log lines, polling loop, terminal event. -/
def stream_logs_events (st : Store) (task_id : String)
    (polls : List (Option Task)) : List SSEEvent × StreamEnd :=
  match TaskManager.get st task_id with
  | none => ([SSEEvent.error ("Задача " ++ task_id ++ " не найдена")], .closed)
  | some t =>
    let backlog := t.logs.map SSEEvent.log
    let (rest, e) := sseLoop t t.logs.length polls
    (backlog ++ rest, e)

/-! ### Task retry endpoint (`app/api/tasks.py`, `retry_task`) -/

/-- `retry_task`: look up the original, build a `TaskCreateRequest` from its
input parameters, create the new task, then call `add_log` on the returned
in-memory object. The source performs no further `save` after `add_log`. -/
def retry_task (st : Store) (task_id : String) (new_id : String) (now : Nat) :
    Option (Task × Store) :=
  match TaskManager.get st task_id with
  | none => none
  | some original =>
    let request : TaskCreateRequest :=
      { type := original.type
        issue_number := original.issue_number
        pr_number := original.pr_number
        branch_name := original.branch_name
        max_iterations := original.max_iterations
        repo_url := none }
    let (new_task, st) := TaskManager.create st request new_id now
    let new_task := new_task.add_log ("Повторная попытка из задачи " ++ task_id) now
    some (new_task, st)

/-! ### Repository monitor (`app/core/monitoring.py`, `_poll_repo`)

Callbacks are modelled as functions from the issue number to an outcome; the
source wraps every callback invocation in its own `try`/`except`, so a failing
callback is recorded and never stops the surrounding loops. -/

/-- The fields of a fetched issue dict read by `_poll_repo`:
`issue.get("number")` and the `"pull_request" in issue` key test. -/
structure IssueItem where
  number : Option Nat := none
  has_pull_request : Bool := false
deriving DecidableEq, Repr

/-- One registered callback: issue number → outcome (`error` = raised). -/
abbrev IssueCallback := Nat → Except String Unit

/-- The `for callback in self.issue_callbacks` loop: every callback is invoked
(each inside its own `try`/`except`), whatever the earlier outcomes were. -/
def runCallbacks (cbs : List IssueCallback) (n : Nat) : List (Except String Unit) :=
  cbs.map (fun cb => cb n)

/-- Processing of one fetched item: skip when the number is missing or falsy,
when the item is a pull request, or when the number was already processed;
otherwise commit the number to the processed-set first and then invoke the
callbacks. Returns the new processed-set and the triggered invocation, if any. -/
def pollStep (cbs : List IssueCallback) (processed : List Nat)
    (issue : IssueItem) : List Nat × Option (Nat × List (Except String Unit)) :=
  match issue.number with
  | none => (processed, none)
  | some n =>
    if n = 0 then (processed, none)
    else if issue.has_pull_request then (processed, none)
    else if n ∈ processed then (processed, none)
    else (n :: processed, some (n, runCallbacks cbs n))

/-- One poll cycle: fold `pollStep` over the fetched items, collecting the
triggered invocations in order. -/
def pollCycle (cbs : List IssueCallback) (processed : List Nat)
    (issues : List IssueItem) :
    List Nat × List (Nat × List (Except String Unit)) :=
  match issues with
  | [] => (processed, [])
  | i :: rest =>
    let (p, tr) := pollStep cbs processed i
    let (p2, trs) := pollCycle cbs p rest
    match tr with
    | some x => (p2, x :: trs)
    | none => (p2, trs)

/-- A sequence of poll cycles over one repository registration: the
processed-set persists from cycle to cycle (it is saved after every cycle and
only grows). -/
def pollCycles (cbs : List IssueCallback) (processed : List Nat)
    (cycles : List (List IssueItem)) :
    List Nat × List (Nat × List (Except String Unit)) :=
  match cycles with
  | [] => (processed, [])
  | c :: rest =>
    let (p, trs) := pollCycle cbs processed c
    let (p2, more) := pollCycles cbs p rest
    (p2, trs ++ more)

/-! ### Concrete fixtures used by the witness and counterexample theorems -/

/-- Create request of end-to-end A: code-agent, issue 42, five iterations. -/
def reqA : TaskCreateRequest :=
  { type := .codeAgent, issue_number := some 42, max_iterations := 5 }

/-- A running task with progress 0.4, for the terminal-update witness. -/
def taskC : Task :=
  { id := "c1", type := .codeAgent, status := .running, issue_number := some 42
    branch_name := some "agent/issue-42", max_iterations := 5, progress := 2/5
    created_at := 10, updated_at := 20, started_at := some 12 }

/-- Store holding `taskC`. -/
def storeC : Store := { records := [("c1", taskC)], index := ["c1"] }

/-- A fresh PENDING task, for the set-once witness. -/
def taskB : Task :=
  { id := "b1", type := .codeAgent, status := .pending, issue_number := some 42
    branch_name := some "agent/issue-42", max_iterations := 5
    created_at := 10, updated_at := 10 }

/-- Store holding `taskB`. -/
def storeB : Store := { records := [("b1", taskB)], index := ["b1"] }

/-- A task whose `started_at` is already set (first RUNNING transition done). -/
def taskB2 : Task :=
  { id := "b2", type := .codeAgent, status := .running
    created_at := 0, updated_at := 5, started_at := some 5 }

/-- A terminal (FAILED) task, original of the retry counterexample. -/
def origR : Task :=
  { id := "t1", type := .codeAgent, status := .failed, issue_number := some 42
    branch_name := some "agent/issue-42", max_iterations := 5
    error := some "boom", created_at := 10, updated_at := 20
    started_at := some 12, completed_at := some 20 }

/-- Store holding `origR`. -/
def storeR : Store := { records := [("t1", origR)], index := ["t1"] }

/-- Webhook payload whose issue carries the `agent-task` label but (like every
real GitHub issue object) no `"label"` key. -/
def whPayloadA : WebhookPayload :=
  { action := some "opened"
    issue := some { number := 7, labels := ["agent-task"] } }

/-- A COMPLETED task with a two-line log backlog, for the SSE witness. -/
def taskG : Task :=
  { id := "g1", type := .codeAgent, status := .completed, progress := 1
    logs := ["[00:00:01] a", "[00:00:02] b"], result := some [("pr_url", "x")]
    created_at := 0, updated_at := 9, started_at := some 1, completed_at := some 9 }

/-- Store holding `taskG`. -/
def storeG : Store := { records := [("g1", taskG)], index := ["g1"] }

/-- Two registered callbacks, the first of which raises on issue 101. -/
def cbsD : List IssueCallback :=
  [fun n => if n = 101 then .error "boom" else .ok (), fun _ => .ok ()]

/-- End-to-end D poll cycles: `[101, 102]` then the overlapping `[102, 103]`. -/
def cyclesD : List (List IssueItem) :=
  [[{ number := some 101 }, { number := some 102 }],
   [{ number := some 102 }, { number := some 103 }]]

/-! ### Helper lemmas on the update pipeline -/

@[simp] theorem applyProgress_none (t : Task) :
    TaskManager.applyProgress t none = t := rfl

@[simp] theorem applyProgress_completed_at (t : Task) (p : Option ℚ) :
    (TaskManager.applyProgress t p).completed_at = t.completed_at := by
  cases p <;> rfl

@[simp] theorem applyProgress_started_at (t : Task) (p : Option ℚ) :
    (TaskManager.applyProgress t p).started_at = t.started_at := by
  cases p <;> rfl

@[simp] theorem applyStep_progress (t : Task) (s : Option String) :
    (TaskManager.applyStep t s).progress = t.progress := by
  cases s with
  | none => rfl
  | some s =>
    simp only [TaskManager.applyStep]
    split <;> rfl

@[simp] theorem applyStep_completed_at (t : Task) (s : Option String) :
    (TaskManager.applyStep t s).completed_at = t.completed_at := by
  cases s with
  | none => rfl
  | some s =>
    simp only [TaskManager.applyStep]
    split <;> rfl

@[simp] theorem applyStep_started_at (t : Task) (s : Option String) :
    (TaskManager.applyStep t s).started_at = t.started_at := by
  cases s with
  | none => rfl
  | some s =>
    simp only [TaskManager.applyStep]
    split <;> rfl

@[simp] theorem applyLog_progress (t : Task) (l : Option String) (now : Nat) :
    (TaskManager.applyLog t l now).progress = t.progress := by
  cases l with
  | none => rfl
  | some l =>
    simp only [TaskManager.applyLog]
    split <;> rfl

@[simp] theorem applyLog_completed_at (t : Task) (l : Option String) (now : Nat) :
    (TaskManager.applyLog t l now).completed_at = t.completed_at := by
  cases l with
  | none => rfl
  | some l =>
    simp only [TaskManager.applyLog]
    split <;> rfl

@[simp] theorem applyLog_started_at (t : Task) (l : Option String) (now : Nat) :
    (TaskManager.applyLog t l now).started_at = t.started_at := by
  cases l with
  | none => rfl
  | some l =>
    simp only [TaskManager.applyLog]
    split <;> rfl

@[simp] theorem applyResult_progress (t : Task) (r : Option PayloadDict) :
    (TaskManager.applyResult t r).progress = t.progress := by
  cases r with
  | none => rfl
  | some r =>
    simp only [TaskManager.applyResult]
    split <;> rfl

@[simp] theorem applyResult_completed_at (t : Task) (r : Option PayloadDict) :
    (TaskManager.applyResult t r).completed_at = t.completed_at := by
  cases r with
  | none => rfl
  | some r =>
    simp only [TaskManager.applyResult]
    split <;> rfl

@[simp] theorem applyResult_started_at (t : Task) (r : Option PayloadDict) :
    (TaskManager.applyResult t r).started_at = t.started_at := by
  cases r with
  | none => rfl
  | some r =>
    simp only [TaskManager.applyResult]
    split <;> rfl

@[simp] theorem applyResult_status (t : Task) (r : Option PayloadDict) :
    (TaskManager.applyResult t r).status = t.status := by
  cases r with
  | none => rfl
  | some r =>
    simp only [TaskManager.applyResult]
    split <;> rfl

@[simp] theorem applyError_progress (t : Task) (e : Option String) :
    (TaskManager.applyError t e).progress = t.progress := by
  cases e with
  | none => rfl
  | some e =>
    simp only [TaskManager.applyError]
    split <;> rfl

@[simp] theorem applyError_completed_at (t : Task) (e : Option String) :
    (TaskManager.applyError t e).completed_at = t.completed_at := by
  cases e with
  | none => rfl
  | some e =>
    simp only [TaskManager.applyError]
    split <;> rfl

@[simp] theorem applyError_started_at (t : Task) (e : Option String) :
    (TaskManager.applyError t e).started_at = t.started_at := by
  cases e with
  | none => rfl
  | some e =>
    simp only [TaskManager.applyError]
    split <;> rfl

@[simp] theorem applyError_status (t : Task) (e : Option String) :
    (TaskManager.applyError t e).status = t.status := by
  cases e with
  | none => rfl
  | some e =>
    simp only [TaskManager.applyError]
    split <;> rfl

@[simp] theorem applyProgress_id (t : Task) (p : Option ℚ) :
    (TaskManager.applyProgress t p).id = t.id := by
  cases p <;> rfl

@[simp] theorem applyStep_id (t : Task) (s : Option String) :
    (TaskManager.applyStep t s).id = t.id := by
  cases s with
  | none => rfl
  | some s =>
    simp only [TaskManager.applyStep]
    split <;> rfl

@[simp] theorem applyLog_id (t : Task) (l : Option String) (now : Nat) :
    (TaskManager.applyLog t l now).id = t.id := by
  cases l with
  | none => rfl
  | some l =>
    simp only [TaskManager.applyLog]
    split <;> rfl

@[simp] theorem applyResult_id (t : Task) (r : Option PayloadDict) :
    (TaskManager.applyResult t r).id = t.id := by
  cases r with
  | none => rfl
  | some r =>
    simp only [TaskManager.applyResult]
    split <;> rfl

@[simp] theorem applyError_id (t : Task) (e : Option String) :
    (TaskManager.applyError t e).id = t.id := by
  cases e with
  | none => rfl
  | some e =>
    simp only [TaskManager.applyError]
    split <;> rfl

@[simp] theorem applyStatus_id (t : Task) (status : Option TaskStatus) (now : Nat) :
    (TaskManager.applyStatus t status now).id = t.id := by
  cases status with
  | none => rfl
  | some s =>
    simp only [TaskManager.applyStatus]
    split
    · rfl
    · split <;> rfl

@[simp] theorem applyStatus_status (t : Task) (s : TaskStatus) (now : Nat) :
    (TaskManager.applyStatus t (some s) now).status = s := by
  simp only [TaskManager.applyStatus]
  split
  · rfl
  · split <;> rfl

/-- The status block on a transition into a terminal status: `completed_at`
is set and progress is forced to 1 exactly for COMPLETED. -/
theorem applyStatus_terminal (t : Task) (s : TaskStatus) (now : Nat)
    (h : s = .completed ∨ s = .failed ∨ s = .cancelled) :
    TaskManager.applyStatus t (some s) now =
      { t with status := s, completed_at := some now
               progress := if s = .completed then 1 else t.progress } := by
  rcases h with rfl | rfl | rfl <;> simp [TaskManager.applyStatus]

/-- `started_at` after the status block: it is touched only on a transition
into RUNNING with `started_at` unset. -/
theorem applyStatus_started_at (t : Task) (status : Option TaskStatus) (now : Nat) :
    (TaskManager.applyStatus t status now).started_at =
      if status = some .running ∧ t.started_at = none then some now
      else t.started_at := by
  cases status with
  | none => simp [TaskManager.applyStatus]
  | some s =>
    simp only [TaskManager.applyStatus]
    by_cases h1 : s = .running ∧ t.started_at = none
    · simp [h1]
    · rw [if_neg h1]
      have h2 : ¬ (some s = some TaskStatus.running ∧ t.started_at = none) := by
        simpa using h1
      rw [if_neg h2]
      split <;> rfl

/-- Looking up the id just saved returns the saved record. -/
theorem get_save_self (st : Store) (t : Task) :
    TaskManager.get (TaskManager.save st t) t.id = some t := by
  simp [TaskManager.get, TaskManager.save, setRecord, List.lookup]

/-- Registering an id in the index leaves the records untouched. -/
theorem get_add_to_list (st : Store) (x id : String) :
    TaskManager.get (TaskManager.add_to_list st x) id = TaskManager.get st id :=
  rfl

/-- `update` on a present id reduces to `applyUpdate` plus a save. -/
theorem update_eq_of_get (st : Store) (task_id : String) (t : Task)
    (progress : Option ℚ) (step log : Option String) (status : Option TaskStatus)
    (result : Option PayloadDict) (error : Option String) (now : Nat)
    (hget : TaskManager.get st task_id = some t) :
    TaskManager.update st task_id progress step log status result error now =
      (some (TaskManager.applyUpdate t progress step log status result error now),
       TaskManager.save st
         (TaskManager.applyUpdate t progress step log status result error now)) := by
  unfold TaskManager.update
  rw [hget]

theorem applyUpdate_completed_at_terminal (t : Task) (progress : Option ℚ)
    (step log : Option String) (s : TaskStatus) (result : Option PayloadDict)
    (error : Option String) (now : Nat)
    (hterm : s = .completed ∨ s = .failed ∨ s = .cancelled) :
    (TaskManager.applyUpdate t progress step log (some s) result error now).completed_at
      = some now := by
  unfold TaskManager.applyUpdate
  simp [applyStatus_terminal _ _ _ hterm]

theorem applyUpdate_progress_completed (t : Task) (progress : Option ℚ)
    (step log : Option String) (result : Option PayloadDict)
    (error : Option String) (now : Nat) :
    (TaskManager.applyUpdate t progress step log (some .completed) result error
        now).progress = 1 := by
  unfold TaskManager.applyUpdate
  simp [applyStatus_terminal _ _ _ (Or.inl rfl)]

theorem applyUpdate_progress_kept (t : Task) (step log : Option String)
    (s : TaskStatus) (result : Option PayloadDict) (error : Option String)
    (now : Nat) (hterm : s = .failed ∨ s = .cancelled) :
    (TaskManager.applyUpdate t none step log (some s) result error now).progress
      = t.progress := by
  unfold TaskManager.applyUpdate
  have hs : s = .completed ∨ s = .failed ∨ s = .cancelled := Or.inr hterm
  have hne : s ≠ .completed := by rcases hterm with rfl | rfl <;> simp
  simp [applyStatus_terminal _ _ _ hs, hne]

theorem applyUpdate_id (t : Task) (progress : Option ℚ) (step log : Option String)
    (status : Option TaskStatus) (result : Option PayloadDict)
    (error : Option String) (now : Nat) :
    (TaskManager.applyUpdate t progress step log status result error now).id
      = t.id := by
  unfold TaskManager.applyUpdate
  simp

theorem applyUpdate_started_at (t : Task) (progress : Option ℚ)
    (step log : Option String) (status : Option TaskStatus)
    (result : Option PayloadDict) (error : Option String) (now : Nat) :
    (TaskManager.applyUpdate t progress step log status result error now).started_at
      = if status = some .running ∧ t.started_at = none then some now
        else t.started_at := by
  unfold TaskManager.applyUpdate
  simp [applyStatus_started_at]

theorem applyUpdate_status_of_some (t : Task) (progress : Option ℚ)
    (step log : Option String) (s : TaskStatus) (result : Option PayloadDict)
    (error : Option String) (now : Nat) :
    (TaskManager.applyUpdate t progress step log (some s) result error now).status
      = s := by
  unfold TaskManager.applyUpdate
  simp

/-! ### Claim theorems -/

/-- Claim C1: for every stored task and every `TaskManager.update` call that
supplies a terminal status (completed, failed or cancelled), the saved record
has a non-null `completed_at`, and progress is forced to 1.0 exactly when the
new status is COMPLETED — for FAILED/CANCELLED the prior progress value is
kept (when no explicit progress argument accompanies the call). -/
theorem update_terminal_sets_completed
    (st : Store) (task_id : String) (t : Task) (progress : Option ℚ)
    (step log : Option String) (s : TaskStatus) (result : Option PayloadDict)
    (error : Option String) (now : Nat)
    (hget : TaskManager.get st task_id = some t)
    (hterm : s = .completed ∨ s = .failed ∨ s = .cancelled) :
    ∃ t',
      (TaskManager.update st task_id progress step log (some s) result error
          now).1 = some t' ∧
      TaskManager.get
        (TaskManager.update st task_id progress step log (some s) result error
          now).2 t'.id = some t' ∧
      t'.completed_at = some now ∧
      (s = .completed → t'.progress = 1) ∧
      ((s = .failed ∨ s = .cancelled) → progress = none →
        t'.progress = t.progress) := by
  rw [update_eq_of_get st task_id t progress step log (some s) result error now
    hget]
  refine ⟨_, rfl, ?_, ?_, ?_, ?_⟩
  · exact get_save_self st _
  · exact applyUpdate_completed_at_terminal t progress step log s result error
      now hterm
  · rintro rfl
    exact applyUpdate_progress_completed t progress step log result error now
  · rintro hfc rfl
    exact applyUpdate_progress_kept t step log s result error now hfc

/-- Witness for C1 at end-to-end C: completing `taskC` (progress 0.4) at time
30 yields progress 1 and a non-null `completed_at`. -/
theorem update_terminal_sets_completed_witness :
    TaskManager.get storeC "c1" = some taskC ∧
    (TaskStatus.completed = .completed ∨ TaskStatus.completed = .failed ∨
      TaskStatus.completed = .cancelled) ∧
    ∃ t',
      (TaskManager.update storeC "c1" none none none (some .completed) none none
          30).1 = some t' ∧
      TaskManager.get
        (TaskManager.update storeC "c1" none none none (some .completed) none
          none 30).2 t'.id = some t' ∧
      t'.completed_at = some 30 ∧
      (TaskStatus.completed = .completed → t'.progress = 1) ∧
      ((TaskStatus.completed = .failed ∨ TaskStatus.completed = .cancelled) →
        (none : Option ℚ) = none → t'.progress = taskC.progress) :=
  ⟨by rfl, Or.inl rfl,
    update_terminal_sets_completed storeC "c1" taskC none none none .completed
      none none 30 (by rfl) (Or.inl rfl)⟩

/-- Counterexample to claim C2 as stated: `Task.mark_started` does not leave a
set `started_at` unchanged — called on a task already RUNNING with
`started_at = 5`, it overwrites the field with the current time. -/
theorem mark_started_overwrites_cex :
    (taskB2.mark_started 10).started_at = some 10 ∧
    (taskB2.mark_started 10).started_at ≠ taskB2.started_at := by
  constructor
  · rfl
  · decide

/-- Claim C2 as amended: through `TaskManager.update`, `started_at` is set at
most once — the first `update(status="running")` on a task with unset
`started_at` sets it to the current time, and any later `update` (whatever its
arguments) leaves a set `started_at` unchanged. `Task.mark_started`, by
contrast, unconditionally overwrites `started_at` on every call. -/
theorem started_at_set_once_via_update
    (st : Store) (task_id : String) (t : Task) (progress : Option ℚ)
    (step log : Option String) (status : Option TaskStatus)
    (result : Option PayloadDict) (error : Option String) (now : Nat)
    (hget : TaskManager.get st task_id = some t) :
    (t.started_at = none → status = some .running →
      ∃ t',
        (TaskManager.update st task_id progress step log status result error
            now).1 = some t' ∧
        t'.started_at = some now ∧ t'.status = .running) ∧
    (∀ x, t.started_at = some x →
      ∃ t',
        (TaskManager.update st task_id progress step log status result error
            now).1 = some t' ∧
        t'.started_at = some x) ∧
    (t.mark_started now).started_at = some now := by
  rw [update_eq_of_get st task_id t progress step log status result error now
    hget]
  refine ⟨?_, ?_, rfl⟩
  · rintro hnone rfl
    refine ⟨_, rfl, ?_, ?_⟩
    · rw [applyUpdate_started_at]
      simp [hnone]
    · exact applyUpdate_status_of_some t progress step log .running result error
        now
  · intro x hx
    refine ⟨_, rfl, ?_⟩
    rw [applyUpdate_started_at]
    simp [hx]

/-- Witness for the amended C2 at end-to-end B: the first
`update(status="running")` on the fresh PENDING `taskB` sets `started_at`. -/
theorem started_at_set_once_via_update_witness :
    TaskManager.get storeB "b1" = some taskB ∧
    ((taskB.started_at = none → some TaskStatus.running = some .running →
      ∃ t',
        (TaskManager.update storeB "b1" none none none (some .running) none none
            20).1 = some t' ∧
        t'.started_at = some 20 ∧ t'.status = .running) ∧
    (∀ x, taskB.started_at = some x →
      ∃ t',
        (TaskManager.update storeB "b1" none none none (some .running) none none
            20).1 = some t' ∧
        t'.started_at = some x) ∧
    (taskB.mark_started 20).started_at = some 20) :=
  ⟨by rfl,
    started_at_set_once_via_update storeB "b1" taskB none none none
      (some .running) none none 20 (by rfl)⟩

/-- Claim C9: every create call returns a task carrying the allocated
(non-empty) id, status PENDING and progress 0.0; a supplied non-empty branch
name is kept, and an unset branch name is defaulted to
`agent/issue-<issue_number>` when an issue number is given. The created record
is persisted as returned. -/
theorem create_fresh_pending
    (st : Store) (req : TaskCreateRequest) (uuid : String) (now : Nat)
    (hid : uuid ≠ "") :
    (TaskManager.create st req uuid now).1.id = uuid ∧
    (TaskManager.create st req uuid now).1.id ≠ "" ∧
    (TaskManager.create st req uuid now).1.status = .pending ∧
    (TaskManager.create st req uuid now).1.progress = 0 ∧
    (∀ s, req.branch_name = some s → s ≠ "" →
      (TaskManager.create st req uuid now).1.branch_name = some s) ∧
    (req.branch_name = none → ∀ n, req.issue_number = some n → n ≠ 0 →
      (TaskManager.create st req uuid now).1.branch_name =
        some ("agent/issue-" ++ toString n)) ∧
    TaskManager.get (TaskManager.create st req uuid now).2 uuid =
      some (TaskManager.create st req uuid now).1 := by
  refine ⟨rfl, hid, rfl, rfl, ?_, ?_, ?_⟩
  · intro s hb hs
    simp only [TaskManager.create, TaskManager.branchFor]
    rw [hb]
    simp [hs]
  · intro hb n hn hnz
    simp only [TaskManager.create, TaskManager.branchFor]
    rw [hb, hn]
    simp [hnz]
  · simp only [TaskManager.create]
    rw [get_add_to_list]
    exact get_save_self st _

/-- Witness for C9 at end-to-end A: creating with `reqA` (code-agent,
issue 42, max_iterations 5, no branch name) yields `agent/issue-42`. -/
theorem create_fresh_pending_witness :
    ("a1b2" ≠ "") ∧
    (TaskManager.create {} reqA "a1b2" 10).1.branch_name =
      some "agent/issue-42" ∧
    ((TaskManager.create {} reqA "a1b2" 10).1.id = "a1b2" ∧
    (TaskManager.create {} reqA "a1b2" 10).1.id ≠ "" ∧
    (TaskManager.create {} reqA "a1b2" 10).1.status = .pending ∧
    (TaskManager.create {} reqA "a1b2" 10).1.progress = 0 ∧
    (∀ s, reqA.branch_name = some s → s ≠ "" →
      (TaskManager.create {} reqA "a1b2" 10).1.branch_name = some s) ∧
    (reqA.branch_name = none → ∀ n, reqA.issue_number = some n → n ≠ 0 →
      (TaskManager.create {} reqA "a1b2" 10).1.branch_name =
        some ("agent/issue-" ++ toString n)) ∧
    TaskManager.get (TaskManager.create {} reqA "a1b2" 10).2 "a1b2" =
      some (TaskManager.create {} reqA "a1b2" 10).1) :=
  ⟨by decide, by rfl, create_fresh_pending {} reqA "a1b2" 10 (by decide)⟩

/-- Membership in `get_all` with a status filter: exactly the tasks reachable
through the id index whose status matches. -/
theorem mem_get_all (st : Store) (s : TaskStatus) (t : Task) :
    t ∈ TaskManager.get_all st (some s) ↔
      t.status = s ∧ ∃ id, id ∈ st.index ∧ TaskManager.get st id = some t := by
  unfold TaskManager.get_all
  rw [List.Perm.mem_iff (List.mergeSort_perm _ _), List.mem_filterMap]
  constructor
  · rintro ⟨id, hid, hf⟩
    cases hg : TaskManager.get st id with
    | none => rw [hg] at hf; simp at hf
    | some u =>
      rw [hg] at hf
      dsimp only at hf
      by_cases hc : (some s : Option TaskStatus) = some u.status
      · rw [if_pos (Or.inr hc)] at hf
        injection hf with hf
        subst hf
        injection hc with hc
        exact ⟨hc.symm, id, hid, hg⟩
      · have hcon : ¬ ((some s : Option TaskStatus) = none ∨
            (some s : Option TaskStatus) = some u.status) := by
          rintro (h | h)
          · exact Option.noConfusion h
          · exact hc h
        rw [if_neg hcon] at hf
        exact absurd hf (by simp)
  · rintro ⟨hst, id, hid, hg⟩
    refine ⟨id, hid, ?_⟩
    rw [hg]
    simp [hst]

/-- The status-filtered index walk of `get_all` is the plain index walk
followed by a status filter. -/
theorem filterMap_status_walk (st : Store) (s : TaskStatus) (l : List String) :
    (l.filterMap (fun id =>
      match TaskManager.get st id with
      | some u =>
        if (some s : Option TaskStatus) = none ∨
            (some s : Option TaskStatus) = some u.status then some u else none
      | none => none))
    = (l.filterMap (fun id => TaskManager.get st id)).filter
        (fun u => decide (u.status = s)) := by
  rw [List.filter_filterMap]
  apply List.filterMap_congr
  intro id _
  cases hg : TaskManager.get st id with
  | none => simp [Option.filter]
  | some u =>
    by_cases hs : u.status = s
    · simp [Option.filter, hs]
    · have hs2 : ¬ (s = u.status) := fun h => hs h.symm
      simp [Option.filter, hs, hs2]

/-- Claim C10: `get_active_tasks` returns exactly the stored tasks whose
status is RUNNING (PENDING and REVIEWING tasks are excluded), and the health
endpoint's `active_tasks` value counts only RUNNING tasks. -/
theorem get_active_tasks_only_running (st : Store) (t : Task) :
    (t ∈ TaskManager.get_active_tasks st ↔
      t.status = .running ∧
        ∃ id, id ∈ st.index ∧ TaskManager.get st id = some t) ∧
    health_active_tasks st =
      ((st.index.filterMap (fun id => TaskManager.get st id)).filter
        (fun u => decide (u.status = TaskStatus.running))).length := by
  constructor
  · exact mem_get_all st .running t
  · unfold health_active_tasks TaskManager.get_active_tasks TaskManager.get_all
    rw [(List.mergeSort_perm _ _).length_eq,
      filterMap_status_walk st .running st.index]

/-- Claim C4 (code-level evaluation): `ConnectionManager.disconnect` is not
exception-free — with two sockets registered under a task id, disconnecting a
socket that is not (or no longer) in the list raises `ValueError` from
`list.remove`, instead of being an idempotent no-op. -/
theorem disconnect_raises_value_err :
    ConnectionManager.disconnect [("t", [1, 2])] "t" 1 =
      Except.ok [("t", [2])] ∧
    ConnectionManager.disconnect [("t", [2])] "t" 1 =
      Except.error "ValueError: list.remove(x): x not in list" ∧
    ConnectionManager.disconnect [("t", [1, 2])] "t" 3 =
      Except.error "ValueError: list.remove(x): x not in list" := by
  refine ⟨rfl, rfl, rfl⟩

/-- Claim C6 (code-level evaluation): a payload whose issue carries the
`agent-task` label — but, like every real GitHub issue object, no `"label"`
key — is merely acknowledged as received; the code-agent workflow is not
reported as triggered, because the handler gates on
`"label" in payload.get("issue", {})` while reading `"labels"`. -/
theorem webhook_labeled_issue_not_triggered :
    github_webhook whPayloadA = .received "opened" ∧
    github_webhook whPayloadA ≠ .triggeredCodeAgent 7 := by
  exact ⟨rfl, by decide⟩

/-- Claim C7: for a task already terminal at connection time, the SSE log
stream emits exactly the backlog of current log lines as `log` events followed
by one `done` event with the final status, progress and result/error, and then
closes — the polling loop never runs (the result is the same for every
sequence of would-be poll results) and no `status` events are emitted. -/
theorem stream_logs_terminal_backlog (st : Store) (task_id : String) (t : Task)
    (polls : List (Option Task))
    (hget : TaskManager.get st task_id = some t)
    (hterm : t.is_active = false) :
    stream_logs_events st task_id polls =
      (t.logs.map SSEEvent.log ++
        [SSEEvent.done t.status t.progress t.result t.error],
       StreamEnd.closed) := by
  unfold stream_logs_events sseLoop
  rw [hget]
  simp [hterm]

/-- Witness for C7: the COMPLETED `taskG` with a two-line backlog, with a
pending poll result that is never consumed. -/
theorem stream_logs_terminal_backlog_witness :
    TaskManager.get storeG "g1" = some taskG ∧ taskG.is_active = false ∧
    stream_logs_events storeG "g1" [some taskG] =
      (taskG.logs.map SSEEvent.log ++
        [SSEEvent.done taskG.status taskG.progress taskG.result taskG.error],
       StreamEnd.closed) :=
  ⟨by rfl, by rfl,
    stream_logs_terminal_backlog storeG "g1" taskG [some taskG] (by rfl)
      (by rfl)⟩

/-- Claim C8: opening the SSE log stream for a task id with no stored record
yields exactly one `error` event and the stream closes — no log, status or
done events. -/
theorem stream_logs_missing_task (st : Store) (task_id : String)
    (polls : List (Option Task))
    (hget : TaskManager.get st task_id = none) :
    stream_logs_events st task_id polls =
      ([SSEEvent.error ("Задача " ++ task_id ++ " не найдена")],
       StreamEnd.closed) := by
  unfold stream_logs_events
  rw [hget]

/-- Witness for C8 at end-to-end E: an empty store and an unknown id. -/
theorem stream_logs_missing_task_witness :
    TaskManager.get {} "zz" = none ∧
    stream_logs_events {} "zz" [] =
      ([SSEEvent.error ("Задача " ++ "zz" ++ " не найдена")],
       StreamEnd.closed) :=
  ⟨by rfl, stream_logs_missing_task {} "zz" [] (by rfl)⟩

/-- Counterexample to claim C5 as stated: retrying the FAILED `origR` does
produce the referencing log line on the *returned* record, but the *persisted*
record (looked up right after the call) has an empty log — `add_log` is called
after `create` already saved, and nothing saves again. -/
theorem retry_log_not_persisted_cex :
    (retry_task storeR "t1" "t2" 50).map
        (fun r => (r.1.logs, (TaskManager.get r.2 "t2").map Task.logs))
      = some (["[00:00:50] Повторная попытка из задачи t1"],
              some ([] : List String)) := by
  rfl

/-- Claim C5 as amended: for every existing terminal task, retry creates a
brand-new task (fresh id, status PENDING) cloned from the original's input
parameters and not from its output or progress; the log line referencing the
original id is recorded on the returned in-memory record, while the persisted
record is the freshly created task without that log line. -/
theorem retry_clones_inputs
    (st : Store) (task_id new_id : String) (original : Task) (now : Nat)
    (hget : TaskManager.get st task_id = some original)
    (_hterm : original.status = .completed ∨ original.status = .failed ∨
      original.status = .cancelled) :
    ∃ ret st',
      retry_task st task_id new_id now = some (ret, st') ∧
      ret.id = new_id ∧ ret.status = .pending ∧
      ret.type = original.type ∧
      ret.issue_number = original.issue_number ∧
      ret.pr_number = original.pr_number ∧
      ret.max_iterations = original.max_iterations ∧
      (∀ s, original.branch_name = some s → s ≠ "" →
        ret.branch_name = some s) ∧
      ret.progress = 0 ∧ ret.result = none ∧ ret.files_changed = [] ∧
      ret.logs = ["[" ++ fmtHMS now ++ "] " ++
        ("Повторная попытка из задачи " ++ task_id)] ∧
      (∃ saved, TaskManager.get st' new_id = some saved ∧ saved.logs = [] ∧
        ret = saved.add_log ("Повторная попытка из задачи " ++ task_id) now) := by
  unfold retry_task
  rw [hget]
  simp only [TaskManager.create]
  refine ⟨_, _, rfl, rfl, rfl, rfl, rfl, rfl, rfl, ?_, rfl, rfl, rfl, rfl, ?_⟩
  · intro s hb hs
    simp only [TaskManager.branchFor]
    rw [hb]
    simp [hs, Task.add_log]
  · refine ⟨_, ?_, rfl, rfl⟩
    rw [get_add_to_list]
    exact get_save_self st _

/-- Witness for the amended C5 on the concrete FAILED task `origR`. -/
theorem retry_clones_inputs_witness :
    TaskManager.get storeR "t1" = some origR ∧
    (origR.status = .completed ∨ origR.status = .failed ∨
      origR.status = .cancelled) ∧
    ∃ ret st',
      retry_task storeR "t1" "t2" 50 = some (ret, st') ∧
      ret.id = "t2" ∧ ret.status = .pending ∧
      ret.type = origR.type ∧
      ret.issue_number = origR.issue_number ∧
      ret.pr_number = origR.pr_number ∧
      ret.max_iterations = origR.max_iterations ∧
      (∀ s, origR.branch_name = some s → s ≠ "" →
        ret.branch_name = some s) ∧
      ret.progress = 0 ∧ ret.result = none ∧ ret.files_changed = [] ∧
      ret.logs = ["[" ++ fmtHMS 50 ++ "] " ++
        ("Повторная попытка из задачи " ++ "t1")] ∧
      (∃ saved, TaskManager.get st' "t2" = some saved ∧ saved.logs = [] ∧
        ret = saved.add_log ("Повторная попытка из задачи " ++ "t1") 50) :=
  ⟨by rfl, Or.inr (Or.inl rfl),
    retry_clones_inputs storeR "t1" "t2" origR 50 (by rfl)
      (Or.inr (Or.inl rfl))⟩

/-- Case analysis of one `_poll_repo` item: either the item is skipped with
the processed-set unchanged, or its number is new and is committed to the
processed-set with every callback invoked. -/
theorem pollStep_cases (cbs : List IssueCallback) (processed : List Nat)
    (i : IssueItem) :
    pollStep cbs processed i = (processed, none) ∨
    ∃ n, i.number = some n ∧ n ∉ processed ∧
      pollStep cbs processed i = (n :: processed, some (n, runCallbacks cbs n)) := by
  unfold pollStep
  cases hn : i.number with
  | none => exact Or.inl rfl
  | some n =>
    dsimp only
    by_cases h0 : n = 0
    · rw [if_pos h0]
      exact Or.inl rfl
    · rw [if_neg h0]
      by_cases hpr : i.has_pull_request = true
      · rw [if_pos hpr]
        exact Or.inl rfl
      · rw [if_neg hpr]
        by_cases hp : n ∈ processed
        · rw [if_pos hp]
          exact Or.inl rfl
        · rw [if_neg hp]
          exact Or.inr ⟨n, rfl, hp, rfl⟩

/-- Invariants of one poll cycle: the processed-set only grows, the numbers
triggered within the cycle are pairwise distinct, and every triggered number
was new, is committed to the resulting processed-set, and had every registered
callback invoked on it. -/
theorem pollCycle_spec (cbs : List IssueCallback) (processed : List Nat)
    (issues : List IssueItem) :
    (∀ n ∈ processed, n ∈ (pollCycle cbs processed issues).1) ∧
    ((pollCycle cbs processed issues).2.map Prod.fst).Nodup ∧
    (∀ x ∈ (pollCycle cbs processed issues).2,
      x.1 ∉ processed ∧ x.1 ∈ (pollCycle cbs processed issues).1 ∧
      x.2 = runCallbacks cbs x.1) := by
  induction issues generalizing processed with
  | nil =>
    refine ⟨?_, ?_, ?_⟩ <;> simp [pollCycle]
  | cons i rest ih =>
    rcases pollStep_cases cbs processed i with h | ⟨n, hn, hmem, h⟩
    · obtain ⟨sub, nd, spec⟩ := ih processed
      rcases hpc : pollCycle cbs processed rest with ⟨p2, trs⟩
      rw [hpc] at sub nd spec
      dsimp only at sub nd spec
      simp only [pollCycle, h, hpc]
      exact ⟨sub, nd, spec⟩
    · obtain ⟨sub, nd, spec⟩ := ih (n :: processed)
      rcases hpc : pollCycle cbs (n :: processed) rest with ⟨p2, trs⟩
      rw [hpc] at sub nd spec
      dsimp only at sub nd spec
      simp only [pollCycle, h, hpc]
      refine ⟨?_, ?_, ?_⟩
      · intro m hm
        exact sub m (List.mem_cons_of_mem n hm)
      · refine List.nodup_cons.mpr ⟨?_, nd⟩
        intro hmm
        obtain ⟨x, hx, hfst⟩ := List.mem_map.mp hmm
        have hx1 : x.1 ∈ n :: processed := by
          rw [hfst]
          exact List.mem_cons_self n processed
        exact (spec x hx).1 hx1
      · intro x hx
        rcases List.mem_cons.mp hx with rfl | hx'
        · exact ⟨hmem, sub n (List.mem_cons_self n processed), rfl⟩
        · obtain ⟨h1, h2, h3⟩ := spec x hx'
          exact ⟨fun hc => h1 (List.mem_cons_of_mem n hc), h2, h3⟩

/-- Claim C3: over any sequence of poll cycles with arbitrarily overlapping
item sets, each distinct issue number triggers the registered callbacks at
most once for the repository registration (the triggered numbers are pairwise
distinct and disjoint from the initial processed-set), every triggered number
is committed to the processed-set (commit happens before invocation, so a
callback failure cannot cause re-processing), and every registered callback is
invoked for a triggered item regardless of other callbacks' failures. -/
theorem monitor_at_most_once (cbs : List IssueCallback) (processed : List Nat)
    (cycles : List (List IssueItem)) :
    (∀ n ∈ processed, n ∈ (pollCycles cbs processed cycles).1) ∧
    ((pollCycles cbs processed cycles).2.map Prod.fst).Nodup ∧
    (∀ x ∈ (pollCycles cbs processed cycles).2,
      x.1 ∉ processed ∧ x.1 ∈ (pollCycles cbs processed cycles).1 ∧
      x.2 = runCallbacks cbs x.1) := by
  induction cycles generalizing processed with
  | nil =>
    refine ⟨?_, ?_, ?_⟩ <;> simp [pollCycles]
  | cons c rest ih =>
    obtain ⟨subC, ndC, specC⟩ := pollCycle_spec cbs processed c
    rcases hc : pollCycle cbs processed c with ⟨p1, trs1⟩
    rw [hc] at subC ndC specC
    dsimp only at subC ndC specC
    obtain ⟨subR, ndR, specR⟩ := ih p1
    rcases hr : pollCycles cbs p1 rest with ⟨p2, trs2⟩
    rw [hr] at subR ndR specR
    dsimp only at subR ndR specR
    simp only [pollCycles, hc, hr]
    refine ⟨?_, ?_, ?_⟩
    · intro m hm
      exact subR m (subC m hm)
    · rw [List.map_append]
      refine List.Nodup.append ndC ndR ?_
      intro a ha1 ha2
      obtain ⟨x, hx, hxa⟩ := List.mem_map.mp ha1
      obtain ⟨y, hy, hya⟩ := List.mem_map.mp ha2
      have hyp : y.1 ∉ p1 := (specR y hy).1
      apply hyp
      rw [hya, ← hxa]
      exact (specC x hx).2.1
    · intro x hx
      rcases List.mem_append.mp hx with hx1 | hx2
      · obtain ⟨h1, h2, h3⟩ := specC x hx1
        exact ⟨h1, subR _ h2, h3⟩
      · obtain ⟨h1, h2, h3⟩ := specR x hx2
        exact ⟨fun hc2 => h1 (subC _ hc2), h2, h3⟩

/-- Witness for C3 at end-to-end D (with a failing first callback): cycles
`[101, 102]` then `[102, 103]` trigger each number exactly once, in order of
first appearance, and the second callback still runs when the first raises. -/
theorem monitor_at_most_once_witness :
    pollCycles cbsD [] cyclesD =
      ([103, 102, 101],
       [(101, [Except.error "boom", Except.ok ()]),
        (102, [Except.ok (), Except.ok ()]),
        (103, [Except.ok (), Except.ok ()])]) ∧
    ((pollCycles cbsD [] cyclesD).2.map Prod.fst).Nodup :=
  ⟨by rfl, (monitor_at_most_once cbsD [] cyclesD).2.1⟩

end CodingAgents
